import Mathlib

/- Verification development for the BRadar time-synchronized playback
   scheduler, class RadarAnim in lib/BRadar/plotutils.py.

   Timestamps are modelled as rationals (absolute seconds).  The source is
   Python 2, where an inter-type comparison never raises and None orders
   below every datetime; pyLt and pyLe capture that ordering on optional
   timestamps.  The RadarCache class lives in BRadar.io, which is not part
   of the sources here, so it is modelled from the specification's cache
   contract (spec sections 3, 4.2 and 4.3). -/

/-- A radar frame as the scheduler sees it.  Only the optional scan time
matters for scheduling decisions; the numeric grids carried by a real frame
play no role in RadarAnim.nextframe. -/
structure Frame where
  scan_time : Option ℚ
  deriving DecidableEq

/-- Modelled from the spec: the FrameCache (class RadarCache of BRadar.io,
absent from the sources) per section 4.2 — a cursor over an ordered frame
sequence with optional wraparound.  The cursor starts one position before
the first frame (started = false), the bootstrap position: section 4.3 says
the first Advance of a session renders the first frame, and section 3 says
startTime and endTime are the scan times of the first and last reachable
frames at session start, which is what curr and peek_prev return there. -/
structure RadarCache where
  frames : List Frame
  cursor : ℕ
  started : Bool
  cyclable : Bool
  cachewidth : ℕ
  deriving DecidableEq

/-- Modelled from the spec: current() — the frame at the cursor, never
advances.  At the bootstrap position this is the first frame. -/
def RadarCache.curr (c : RadarCache) : Frame :=
  c.frames.getD c.cursor ⟨none⟩

/-- Modelled from the spec: peek_next() — the frame one position ahead of
the cursor, without moving it.  At the bootstrap position the frame one
ahead is the first frame, the one the initial advance lands on. -/
def RadarCache.peek_next (c : RadarCache) : Frame :=
  c.frames.getD ((if c.started then c.cursor + 1 else c.cursor) % c.frames.length) ⟨none⟩

/-- Modelled from the spec: peek_prev() — the frame one position behind the
cursor, wrapping to the last frame at the front of the sequence (section 3:
endTime, read through peek_prev at session start, is the last reachable
frame's scan time). -/
def RadarCache.peek_prev (c : RadarCache) : Frame :=
  c.frames.getD ((c.cursor + c.frames.length - 1) % c.frames.length) ⟨none⟩

/-- Modelled from the spec: advance() — move the cursor forward by one and
return the new cache state; the new current frame is then read with curr.
On a cyclable cache advancing past the last frame wraps to the first;
otherwise it fails (ExhaustedError), modelled as none. -/
def RadarCache.next (c : RadarCache) : Option RadarCache :=
  if c.started = false then some { c with started := true }
  else if c.cursor + 1 < c.frames.length then some { c with cursor := c.cursor + 1 }
  else if c.cyclable then some { c with cursor := 0 }
  else none

/-- Modelled from the spec: length() — the total number of addressable
frame identifiers, not the cache window size. -/
def RadarCache.size (c : RadarCache) : ℕ :=
  c.frames.length

/-- RadarAnim._get_time (plotutils.py lines 242-249): read the optional
scan_time of a frame record; a raw numeric epoch offset is normalized to an
absolute timestamp, which under the rational timestamp model is the
identity, and an absent scan_time stays None. -/
def get_time (f : Frame) : Option ℚ :=
  f.scan_time

/-- Python 2 strict ordering on optional timestamps: None compares below
every timestamp and is not below itself; `a < b` is the usual order when
both are present.  An inter-type comparison in Python 2 never raises. -/
def pyLt : Option ℚ → Option ℚ → Bool
  | none, none => false
  | none, some _ => true
  | some _, none => false
  | some a, some b => decide (a < b)

/-- Python 2 non-strict ordering on optional timestamps: None is below or
equal to everything; a present timestamp is never at or below None. -/
def pyLe : Option ℚ → Option ℚ → Bool
  | none, _ => true
  | some _, none => false
  | some a, some b => decide (a ≤ b)

/-- Fuel bound for the marker generation loop of RadarAnim.__init__: with a
positive timestep the loop body runs at most ⌈(endTime - startTime) /
timestep⌉ times, so this many iterations plus one always suffices. -/
def markerFuel (start : ℚ) (endT : Option ℚ) (step : ℚ) : ℕ :=
  match endT with
  | none => 0
  | some e => (Int.ceil ((e - start) / step)).toNat + 1

/-- Body of the marker generation loop (plotutils.py lines 198-202):
while currTime < endTime, append currTime + timestep and continue from it.
The comparison against the optional endTime uses the Python 2 order; the
fuel argument only bounds the iteration count and is chosen large enough
by genMarkers. -/
def genMarkersAux : ℕ → ℚ → Option ℚ → ℚ → List ℚ
  | 0, _, _, _ => []
  | f + 1, curr, endT, step =>
    if pyLt (some curr) endT then
      (curr + step) :: genMarkersAux f (curr + step) endT step
    else []

/-- RadarAnim.__init__ rate-derived marker generation (lines 196-202):
time_markers starts as [startTime] and grows by timestep while the last
appended marker is still before endTime. -/
def genMarkers (start : ℚ) (endT : Option ℚ) (step : ℚ) : List ℚ :=
  start :: genMarkersAux (markerFuel start endT step) start endT step

/-- Session state of RadarAnim that the scheduler reads: the cache, the
startTime/endTime snapshots, the rate parameters, the marker list and
save_count, and the robust flag. -/
structure RadarAnim where
  rd : RadarCache
  startTime : Option ℚ
  endTime : Option ℚ
  sps : Option ℚ
  fps : ℚ
  time_markers : Option (List ℚ)
  save_count : ℕ
  robust : Bool
  deriving DecidableEq

/-- RadarAnim.__init__ (plotutils.py lines 129-215).  The cache is always
constructed with cachewidth=3 and cyclable=True (line 170).  startTime and
endTime are the current and previous frame times at the initial cursor
position (lines 173-174).  With no explicit time_markers, fps is derived
from the timer interval in milliseconds and, when sps is present, the
marker list is generated from timestep = sps / fps (lines 191-202); a
missing startTime would make the loop body add a timestep to None, a
Python TypeError, modelled as a construction error.  With explicit
time_markers, fps = (len - 1) / ((last - first) / sps) (lines 207-212);
an empty list raises IndexError on markers[-1], sps of None raises
TypeError in the division, sps of zero and equal first and last markers
each raise ZeroDivisionError — all modelled as construction errors.
save_count is the marker count, else the cache length (lines 213-215). -/
def RadarAnim.init (files : List Frame) (robust : Bool) (sps : Option ℚ)
    (time_markers : Option (List ℚ)) (interval : ℚ) : Except Unit RadarAnim :=
  let rd : RadarCache := ⟨files, 0, false, true, 3⟩
  let startTime := get_time rd.curr
  let endTime := get_time rd.peek_prev
  match time_markers with
  | none =>
    let fps := 1000 / interval
    match sps with
    | some s =>
      match startTime with
      | some st =>
        let ms := genMarkers st endTime (s / fps)
        Except.ok ⟨rd, startTime, endTime, some s, fps, some ms, ms.length, robust⟩
      | none => Except.error ()
    | none =>
      Except.ok ⟨rd, startTime, endTime, none, fps, none, files.length, robust⟩
  | some ms =>
    match sps with
    | none => Except.error ()
    | some s =>
      match ms.head?, ms.getLast? with
      | some m0, some mlast =>
        if s = 0 then Except.error ()
        else if mlast = m0 then Except.error ()
        else
          let fps := ((ms.length : ℚ) - 1) / ((mlast - m0) / s)
          Except.ok ⟨rd, startTime, endTime, some s, fps, some ms, ms.length, robust⟩
      | _, _ => Except.error ()

/-- The branch a tick of RadarAnim.nextframe takes: hold returns None with
no render, advance pulls frames and signals a render. -/
inductive DecisionKind where
  | hold
  | advance
  deriving DecidableEq

/-- Observable outcome of one tick: the updated session, the decision
taken, the number of dropped frames and of cycle-reset skips (both printed
by the source, hence observable), the rendered frame if any, and whether a
cache advance failed (an ExhaustedError propagating out of the tick). -/
structure TickOutcome where
  state : RadarAnim
  kind : DecisionKind
  drops : ℕ
  skips : ℕ
  rendered : Option Frame
  exhausted : Bool
  deriving DecidableEq

/-- The frame-dropping loop of RadarAnim.nextframe (lines 315-318): while
next_time < frametime < endTime, advance the cache without rendering.
Returns the cache after the loop, the number of drops, and whether an
advance failed.  The source loop is unbounded; here fuel bounds it, and
nextframe passes the cache length, which suffices whenever some position
of the cyclic frame sequence falsifies the guard — in particular in any
session whose endTime is the scan time of a reachable frame. -/
def dropLoop : ℕ → RadarCache → ℚ → Option ℚ → RadarCache × ℕ × Bool
  | 0, c, _, _ => (c, 0, false)
  | f + 1, c, frametime, endT =>
    if pyLt (get_time c.peek_next) (some frametime) && pyLt (some frametime) endT then
      match RadarCache.next c with
      | some c2 =>
        let r := dropLoop f c2 frametime endT
        (r.1, r.2.1 + 1, r.2.2)
      | none => (c, 0, true)
    else (c, 0, false)

/-- The cycle-reset loop of RadarAnim.nextframe (lines 310-312): while
startTime < curr_time <= endTime, advance the cache without rendering
(the Python chained comparison is the conjunction of the two Python 2
comparisons).  Fuel as for dropLoop: the cache length suffices whenever
some reachable position falsifies the guard, in particular position 0 of a
session whose startTime is the first frame's scan time. -/
def cycleLoop : ℕ → RadarCache → Option ℚ → Option ℚ → RadarCache × ℕ × Bool
  | 0, c, _, _ => (c, 0, false)
  | f + 1, c, startT, endT =>
    if pyLt startT (get_time c.curr) && pyLe (get_time c.curr) endT then
      match RadarCache.next c with
      | some c2 =>
        let r := cycleLoop f c2 startT endT
        (r.1, r.2.1 + 1, r.2.2)
      | none => (c, 0, true)
    else (c, 0, false)

/-- RadarAnim.nextframe (plotutils.py lines 295-324).  With no time markers
the tick unconditionally advances once and renders the new current frame
(lines 296-299).  Otherwise frametime = time_markers[frameindex %
save_count]; if frametime > endTime the tick holds (lines 301-306); at a
positive multiple of save_count the cycle-reset loop runs first (lines
308-312); then if frametime >= curr_time the drop loop runs and one
rendering advance follows (lines 314-322), else the tick holds (line 324).
All comparisons are Python 2 comparisons on possibly-missing times. -/
def RadarAnim.nextframe (s : RadarAnim) (frameindex : ℕ) : TickOutcome :=
  match s.time_markers with
  | none =>
    match RadarCache.next s.rd with
    | some c2 => ⟨{ s with rd := c2 }, DecisionKind.advance, 0, 0, some c2.curr, false⟩
    | none => ⟨s, DecisionKind.advance, 0, 0, none, true⟩
  | some ms =>
    let frametime := ms.getD (frameindex % s.save_count) 0
    if pyLt s.endTime (some frametime) then
      ⟨s, DecisionKind.hold, 0, 0, none, false⟩
    else
      let cyc :=
        if frameindex % s.save_count = 0 ∧ 0 < frameindex then
          cycleLoop s.rd.frames.length s.rd s.startTime s.endTime
        else (s.rd, 0, false)
      if cyc.2.2 then ⟨{ s with rd := cyc.1 }, DecisionKind.advance, 0, cyc.2.1, none, true⟩
      else if pyLe (get_time cyc.1.curr) (some frametime) then
        let dr := dropLoop cyc.1.frames.length cyc.1 frametime s.endTime
        if dr.2.2 then ⟨{ s with rd := dr.1 }, DecisionKind.advance, dr.2.1, cyc.2.1, none, true⟩
        else
          match RadarCache.next dr.1 with
          | some c3 =>
            ⟨{ s with rd := c3 }, DecisionKind.advance, dr.2.1, cyc.2.1, some c3.curr, false⟩
          | none => ⟨{ s with rd := dr.1 }, DecisionKind.advance, dr.2.1, cyc.2.1, none, true⟩
      else ⟨{ s with rd := cyc.1 }, DecisionKind.hold, 0, cyc.2.1, none, false⟩

/-- Run consecutive ticks starting at a given frame index, threading the
session state, and collect the outcomes in order. -/
def runTicksFrom (s : RadarAnim) (idx : ℕ) : ℕ → List TickOutcome
  | 0 => []
  | n + 1 =>
    let o := s.nextframe idx
    o :: runTicksFrom o.state (idx + 1) n

/-- Run ticks 0, 1, …, n-1 of a session and collect the outcomes. -/
def runTicks (s : RadarAnim) (n : ℕ) : List TickOutcome :=
  runTicksFrom s 0 n

/-- View of a session construction result used by concrete evaluations:
the marker list and save_count, or none on a construction error. -/
def sessionView (r : Except Unit RadarAnim) : Option (Option (List ℚ) × ℕ) :=
  match r with
  | Except.ok s => some (s.time_markers, s.save_count)
  | Except.error _ => none

/-- Observable summary of one tick outcome: the decision taken, the drop
and skip counts, the scan time of the rendered frame if any, and the
exhaustion flag. -/
structure TickSummary where
  kind : DecisionKind
  drops : ℕ
  skips : ℕ
  rendered : Option (Option ℚ)
  exhausted : Bool
  deriving DecidableEq

/-- Summarize one tick outcome. -/
def tickView (o : TickOutcome) : TickSummary :=
  ⟨o.kind, o.drops, o.skips, o.rendered.map get_time, o.exhausted⟩

/-- Run n ticks of a freshly constructed session and summarize each
outcome, or none on a construction error. -/
def runView (r : Except Unit RadarAnim) (n : ℕ) : Option (List TickSummary) :=
  match r with
  | Except.ok s => some ((runTicks s n).map tickView)
  | Except.error _ => none

/-- The current frame's optional scan time of a freshly constructed
session, or none on a construction error. -/
def currTimeView (r : Except Unit RadarAnim) : Option (Option ℚ) :=
  match r with
  | Except.ok s => some (get_time (RadarCache.curr s.rd))
  | Except.error _ => none


/-- The five-frame cache of the end-to-end scenario: scan times 0,1,2,3,4
seconds. -/
def files1 : List Frame :=
  [⟨some 0⟩, ⟨some 1⟩, ⟨some 2⟩, ⟨some 3⟩, ⟨some 4⟩]

/-- The session the end-to-end scenario constructs: sps=2 with a 1000 ms
timer interval (fps=1), markers generated from timestep 2 s. -/
def c1anim : RadarAnim :=
  ⟨⟨files1, 0, false, true, 3⟩, some 0, some 4, some 2, 1, some [0, 2, 4], 3, false⟩

/-- Mid-session state for the drop-correctness scenario: cache timestamps
0,2,4,6 s with the cursor on the first frame, endTime = 6 s, and a marker
list whose entry at index 1 is the target frametime 5 s. -/
def c3anim : RadarAnim :=
  ⟨⟨[⟨some 0⟩, ⟨some 2⟩, ⟨some 4⟩, ⟨some 6⟩], 0, true, true, 3⟩,
    some 0, some 6, some 1, 1, some [0, 5], 2, false⟩

/-- A three-frame cache whose first frame has no scan_time, for the
missing-timestamp scenario. -/
def files5 : List Frame :=
  [⟨none⟩, ⟨some 10⟩, ⟨some 20⟩]

/-- Mid-session synchronized state whose current frame lacks a scan_time:
two frames, the first without a timestamp, explicit markers [1, 2]. -/
def c5anim : RadarAnim :=
  ⟨⟨[⟨none⟩, ⟨some 3⟩], 0, true, true, 3⟩, none, some 3, some 1, 1, some [1, 2], 2, false⟩

/-- An ordered three-frame cyclable cache with its cursor mid-sequence,
for the cycle-reset witness. -/
def c6cache : RadarCache :=
  ⟨[⟨some 0⟩, ⟨some 2⟩, ⟨some 4⟩], 1, true, true, 3⟩

/-- A synchronized session whose single marker 10 s lies beyond the
endTime 4 s, for the hold-on-overrun witness. -/
def c7anim : RadarAnim :=
  ⟨⟨[⟨some 0⟩, ⟨some 4⟩], 0, true, true, 3⟩, some 0, some 4, some 2, 1, some [10], 1, false⟩

/-- An unsynchronized session over a two-frame non-cyclable cache: no rate,
no explicit markers, save_count = cache length. -/
def c8anim : RadarAnim :=
  ⟨⟨[⟨some 0⟩, ⟨some 1⟩], 0, false, false, 3⟩, some 0, some 1, none, 5, none, 2, false⟩

/- ---------------------------------------------------------------------
   Helper lemmas
   --------------------------------------------------------------------- -/

theorem pyLt_some_iff (a b : ℚ) : pyLt (some a) (some b) = true ↔ a < b := by
  simp [pyLt]

theorem pyLe_some_iff (a b : ℚ) : pyLe (some a) (some b) = true ↔ a ≤ b := by
  simp [pyLe]

theorem pyLe_none_left (x : Option ℚ) : pyLe none x = true := rfl

theorem RadarCache.next_isSome_of_cyclable (c : RadarCache) (hc : c.cyclable = true) :
    (RadarCache.next c).isSome = true := by
  unfold RadarCache.next
  split
  · rfl
  · split
    · rfl
    · rw [hc]
      simp

theorem RadarCache.next_fields {c c2 : RadarCache} (h : RadarCache.next c = some c2) :
    c2.frames = c.frames ∧ c2.cyclable = c.cyclable := by
  unfold RadarCache.next at h
  split at h
  · cases h
    exact ⟨rfl, rfl⟩
  · split at h
    · cases h
      exact ⟨rfl, rfl⟩
    · split at h
      · cases h
        exact ⟨rfl, rfl⟩
      · cases h

theorem RadarCache.next_cursor_lt {c c2 : RadarCache} (h : RadarCache.next c = some c2)
    (hcur : c.cursor < c.frames.length) : c2.cursor < c2.frames.length := by
  unfold RadarCache.next at h
  split at h
  · cases h
    exact hcur
  · split at h
    · cases h
      assumption
    · split at h
      · cases h
        exact Nat.lt_of_le_of_lt (Nat.zero_le _) hcur
      · cases h

theorem dropLoop_no_exhaust (frametime : ℚ) (endT : Option ℚ) :
    ∀ (fuel : ℕ) (c : RadarCache), c.cyclable = true →
      (dropLoop fuel c frametime endT).2.2 = false ∧
      (dropLoop fuel c frametime endT).1.cyclable = true := by
  intro fuel
  induction fuel with
  | zero => exact fun c hc => ⟨rfl, hc⟩
  | succ f ih =>
    intro c hc
    unfold dropLoop
    split
    · cases hn : RadarCache.next c with
      | none =>
        have hs := RadarCache.next_isSome_of_cyclable c hc
        rw [hn] at hs
        simp at hs
      | some c2 =>
        have hc2 : c2.cyclable = true := (RadarCache.next_fields hn).2.trans hc
        simpa using ih c2 hc2
    · exact ⟨rfl, hc⟩

theorem cycleLoop_no_exhaust (startT endT : Option ℚ) :
    ∀ (fuel : ℕ) (c : RadarCache), c.cyclable = true →
      (cycleLoop fuel c startT endT).2.2 = false ∧
      (cycleLoop fuel c startT endT).1.cyclable = true := by
  intro fuel
  induction fuel with
  | zero => exact fun c hc => ⟨rfl, hc⟩
  | succ f ih =>
    intro c hc
    unfold cycleLoop
    split
    · cases hn : RadarCache.next c with
      | none =>
        have hs := RadarCache.next_isSome_of_cyclable c hc
        rw [hn] at hs
        simp at hs
      | some c2 =>
        have hc2 : c2.cyclable = true := (RadarCache.next_fields hn).2.trans hc
        simpa using ih c2 hc2
    · exact ⟨rfl, hc⟩

theorem curr_in_range (c : RadarCache) (t0 tN : ℚ)
    (hcur : c.cursor < c.frames.length)
    (hall : ∀ f ∈ c.frames, ∃ t, f.scan_time = some t ∧ t0 ≤ t ∧ t ≤ tN) :
    pyLe (some t0) (get_time c.curr) = true ∧
    pyLe (get_time c.curr) (some tN) = true := by
  have hmem : c.frames.getD c.cursor ⟨none⟩ ∈ c.frames := by
    rw [List.getD_eq_getElem?_getD, List.getElem?_eq_getElem hcur]
    exact List.getElem_mem hcur
  obtain ⟨t, ht, h1, h2⟩ := hall _ hmem
  unfold RadarCache.curr get_time
  rw [ht]
  exact ⟨by simpa [pyLe] using h1, by simpa [pyLe] using h2⟩

/-- Claim C2: in explicit-marker mode, session construction fails when the
marker list has fewer than 2 entries or sps is absent.  In the source the
failures are the IndexError, ZeroDivisionError and TypeError raised while
computing fps at lines 209-211, all fatal at construction; the spec's
ConfigError names this construction-time failure class. -/
theorem c2_explicit_marker_config_error (files : List Frame) (robust : Bool)
    (sps : Option ℚ) (interval : ℚ) (ms : List ℚ)
    (h : ms.length < 2 ∨ sps = none) :
    RadarAnim.init files robust sps (some ms) interval = Except.error () := by
  unfold RadarAnim.init
  rcases h with h | rfl
  · cases sps with
    | none => rfl
    | some s =>
      rcases ms with _ | ⟨a, _ | ⟨b, t⟩⟩
      · rfl
      · show (if s = 0 then Except.error () else if a = a then Except.error () else _) = _
        split
        · rfl
        · rw [if_pos rfl]
      · exfalso
        simp at h
        omega
  · rfl

/-- Witness for C2: a one-entry marker list with sps present is rejected at
construction. -/
theorem c2_witness :
    RadarAnim.init [] false (some 1) (some [3]) 200 = Except.error () :=
  c2_explicit_marker_config_error [] false (some 1) 200 [3] (Or.inl (by decide))

/-- Claim C3: with cache timestamps 0,2,4,6 s (endTime 6 s), the cursor on
the first frame and the current marker frametime 5 s, one tick drops
exactly twice (through the 2 s and 4 s frames) and then advances once with
a render, so the rendered frame is the 6 s one. -/
theorem c3_drop_correctness :
    tickView (c3anim.nextframe 1) =
      ⟨DecisionKind.advance, 2, 0, some (some 6), false⟩ := by
  decide

/-- Claim C7: in synchronized mode, whenever the marker selected for this
tick lies beyond endTime, the tick holds: no render, no drop, no skip, and
the session state is returned unchanged. -/
theorem c7_hold_on_overrun (s : RadarAnim) (idx : ℕ) (ms : List ℚ)
    (hm : s.time_markers = some ms)
    (hsc : 0 < s.save_count)
    (hover : pyLt s.endTime (some (ms.getD (idx % s.save_count) 0)) = true) :
    s.nextframe idx = ⟨s, DecisionKind.hold, 0, 0, none, false⟩ := by
  unfold RadarAnim.nextframe
  rw [hm]
  simp only [hover, if_true]

/-- Witness for C7: a session whose marker 10 s exceeds its endTime 4 s
holds on tick 0. -/
theorem c7_witness :
    c7anim.nextframe 0 = ⟨c7anim, DecisionKind.hold, 0, 0, none, false⟩ :=
  c7_hold_on_overrun c7anim 0 [10] rfl (by decide) (by decide)

/-- Claim C10: every session built by RadarAnim.__init__ carries a cache
constructed with cyclable=True and cachewidth=3, whatever the constructor
arguments, and advancing any cyclable cache never fails, so the
ExhaustedError condition is unreachable in such sessions. -/
theorem c10_always_cyclable (files : List Frame) (robust : Bool) (sps : Option ℚ)
    (tm : Option (List ℚ)) (interval : ℚ) (s : RadarAnim) (c : RadarCache)
    (h : RadarAnim.init files robust sps tm interval = Except.ok s)
    (hc : c.cyclable = true) :
    s.rd.cyclable = true ∧ s.rd.cachewidth = 3 ∧
    (RadarCache.next c).isSome = true := by
  refine ⟨?_, ?_, RadarCache.next_isSome_of_cyclable c hc⟩ <;>
  · unfold RadarAnim.init at h
    dsimp only at h
    repeat' split at h
    all_goals first
      | (cases h; rfl)
      | exact Except.noConfusion h

/-- Witness for C10: a concrete one-frame unsynchronized session has a
cyclable width-3 cache, and a concrete cyclable cache advances without
failing. -/
theorem c10_witness :
    (RadarAnim.mk ⟨[⟨some 0⟩], 0, false, true, 3⟩ (some 0) (some 0) none
        (1000 / 200) none 1 false).rd.cyclable = true ∧
    (RadarAnim.mk ⟨[⟨some 0⟩], 0, false, true, 3⟩ (some 0) (some 0) none
        (1000 / 200) none 1 false).rd.cachewidth = 3 ∧
    (RadarCache.next ⟨[⟨some 0⟩], 0, true, true, 3⟩).isSome = true :=
  c10_always_cyclable [⟨some 0⟩] false none none 200 _ _ rfl rfl

theorem unsync_tick (s : RadarAnim) (idx : ℕ) (hm : s.time_markers = none) :
    (s.nextframe idx).kind = DecisionKind.advance ∧
    (s.nextframe idx).drops = 0 ∧
    (s.nextframe idx).skips = 0 ∧
    (s.nextframe idx).state.time_markers = none ∧
    (s.nextframe idx).state.rd.cyclable = s.rd.cyclable ∧
    (s.rd.cyclable = true → (s.nextframe idx).rendered.isSome = true) := by
  unfold RadarAnim.nextframe
  rw [hm]
  cases hn : RadarCache.next s.rd with
  | some c2 =>
    exact ⟨rfl, rfl, rfl, rfl, (RadarCache.next_fields hn).2, fun _ => rfl⟩
  | none =>
    refine ⟨rfl, rfl, rfl, hm, rfl, fun hcyc => ?_⟩
    have hs := RadarCache.next_isSome_of_cyclable s.rd hcyc
    rw [hn] at hs
    simp at hs

/-- Claim C8: with sps absent and no explicit time markers, every tick of
nextframe takes the Advance branch — one cache pull with a render signal,
never a Drop and never a Hold — so n consecutive ticks yield n Advance
decisions, zero drops and zero skips, and on a cyclable cache every tick
renders a frame. -/
theorem c8_unsync_always_advance (s : RadarAnim) (n : ℕ)
    (hm : s.time_markers = none) :
    ((runTicks s n).map TickOutcome.kind = List.replicate n DecisionKind.advance) ∧
    (∀ o ∈ runTicks s n, o.drops = 0 ∧ o.skips = 0 ∧ o.kind = DecisionKind.advance) ∧
    (s.rd.cyclable = true → ∀ o ∈ runTicks s n, o.rendered.isSome = true) := by
  suffices h : ∀ (m idx : ℕ) (s : RadarAnim), s.time_markers = none →
      ((runTicksFrom s idx m).map TickOutcome.kind =
        List.replicate m DecisionKind.advance) ∧
      (∀ o ∈ runTicksFrom s idx m,
        o.drops = 0 ∧ o.skips = 0 ∧ o.kind = DecisionKind.advance) ∧
      (s.rd.cyclable = true →
        ∀ o ∈ runTicksFrom s idx m, o.rendered.isSome = true) by
    exact h n 0 s hm
  intro m
  induction m with
  | zero =>
    intro idx s hm
    refine ⟨rfl, ?_, ?_⟩ <;> simp [runTicksFrom]
  | succ m ih =>
    intro idx s hm
    obtain ⟨hk, hd, hsk, hsm, hcy, hr⟩ := unsync_tick s idx hm
    obtain ⟨ihk, ihd, ihr⟩ := ih (idx + 1) (s.nextframe idx).state hsm
    refine ⟨?_, ?_, ?_⟩
    · simp only [runTicksFrom, List.map_cons, ihk, hk, List.replicate_succ]
    · intro o ho
      simp only [runTicksFrom, List.mem_cons] at ho
      rcases ho with rfl | ho
      · exact ⟨hd, hsk, hk⟩
      · exact ihd o ho
    · intro hcyc o ho
      simp only [runTicksFrom, List.mem_cons] at ho
      rcases ho with rfl | ho
      · exact hr hcyc
      · exact ihr (hcy.trans hcyc) o ho

/-- Witness for C8: two ticks of a concrete unsynchronized session over a
two-frame non-cyclable cache are both Advance decisions. -/
theorem c8_witness :
    c8anim.time_markers = none ∧
    (runTicks c8anim 2).map TickOutcome.kind =
      List.replicate 2 DecisionKind.advance :=
  ⟨rfl, (c8_unsync_always_advance c8anim 2 rfl).1⟩

/-- Claim C6: whenever the cycle-reset loop of nextframe runs on a cyclable
cache whose frames all carry scan times within [startTime, endTime] — the
session-start invariant for a time-ordered cache whose first and last frame
times are the startTime/endTime snapshots — the loop finishes without
exhaustion and leaves the cursor on a frame with startTime <=
current().scan_time <= endTime. -/
theorem c6_cycle_reset_post (fuel : ℕ) (c : RadarCache) (t0 tN : ℚ)
    (hcyc : c.cyclable = true)
    (hcur : c.cursor < c.frames.length)
    (hall : ∀ f ∈ c.frames, ∃ t, f.scan_time = some t ∧ t0 ≤ t ∧ t ≤ tN) :
    (cycleLoop fuel c (some t0) (some tN)).2.2 = false ∧
    pyLe (some t0) (get_time (cycleLoop fuel c (some t0) (some tN)).1.curr) = true ∧
    pyLe (get_time (cycleLoop fuel c (some t0) (some tN)).1.curr) (some tN) = true := by
  induction fuel generalizing c with
  | zero =>
    obtain ⟨h1, h2⟩ := curr_in_range c t0 tN hcur hall
    exact ⟨rfl, h1, h2⟩
  | succ f ih =>
    unfold cycleLoop
    split
    · cases hn : RadarCache.next c with
      | none =>
        have hs := RadarCache.next_isSome_of_cyclable c hcyc
        rw [hn] at hs
        simp at hs
      | some c2 =>
        obtain ⟨hf, hcy⟩ := RadarCache.next_fields hn
        have ih2 := ih c2 (hcy.trans hcyc) (RadarCache.next_cursor_lt hn hcur)
          (by rw [hf]; exact hall)
        simpa using ih2
    · obtain ⟨h1, h2⟩ := curr_in_range c t0 tN hcur hall
      exact ⟨rfl, h1, h2⟩

/-- Witness for C6: the cycle-reset loop on a concrete ordered cache ends
within range. -/
theorem c6_witness :
    (cycleLoop 3 c6cache (some 0) (some 4)).2.2 = false ∧
    pyLe (some 0) (get_time (cycleLoop 3 c6cache (some 0) (some 4)).1.curr) = true ∧
    pyLe (get_time (cycleLoop 3 c6cache (some 0) (some 4)).1.curr) (some 4) = true :=
  c6_cycle_reset_post 3 c6cache 0 4 rfl (by decide) (by
    intro f hf
    simp only [c6cache, List.mem_cons, List.not_mem_nil, or_false] at hf
    rcases hf with rfl | rfl | rfl
    · exact ⟨0, rfl, by decide, by decide⟩
    · exact ⟨2, rfl, by decide, by decide⟩
    · exact ⟨4, rfl, by decide, by decide⟩)

/-- Counterexample for C5: a synchronized session whose current frame lacks
a scan_time does not fail fast — its first tick proceeds through the marker
comparisons (the missing time ordering below every timestamp even causes a
drop) and renders a frame. -/
theorem c5_counterexample :
    currTimeView (RadarAnim.init files5 false (some 1) (some [5, 15]) 200) =
      some none ∧
    runView (RadarAnim.init files5 false (some 1) (some [5, 15]) 200) 1 =
      some [⟨DecisionKind.advance, 1, 0, some (some 10), false⟩] := by
  constructor <;> decide

/-- Claim C5 as amended: in synchronized mode a fetched frame without a
usable timestamp is compared anyway under the Python 2 order, where None
sits below every timestamp; in particular a missing current-frame time
always satisfies frametime >= curr_time, so a non-overrun, non-cycle tick
takes the Advance branch and renders instead of failing. -/
theorem c5_missing_timestamp_advances (s : RadarAnim) (idx : ℕ) (ms : List ℚ)
    (hm : s.time_markers = some ms)
    (hcyc : s.rd.cyclable = true)
    (hnone : get_time (RadarCache.curr s.rd) = none)
    (hnotover : pyLt s.endTime (some (ms.getD (idx % s.save_count) 0)) = false)
    (hnotcycle : ¬(idx % s.save_count = 0 ∧ 0 < idx)) :
    (s.nextframe idx).kind = DecisionKind.advance ∧
    (s.nextframe idx).rendered.isSome = true ∧
    (s.nextframe idx).exhausted = false := by
  unfold RadarAnim.nextframe
  rw [hm]
  dsimp only
  rw [hnotover]
  rw [if_neg (by simp)]
  rw [if_neg hnotcycle]
  dsimp only
  rw [if_neg (by simp)]
  rw [hnone]
  rw [if_pos (show pyLe none (some (ms.getD (idx % s.save_count) 0)) = true from rfl)]
  have hdr := dropLoop_no_exhaust (ms.getD (idx % s.save_count) 0) s.endTime
    s.rd.frames.length s.rd hcyc
  rw [hdr.1]
  rw [if_neg (by simp)]
  obtain ⟨c3, hc3⟩ := Option.isSome_iff_exists.mp
    (RadarCache.next_isSome_of_cyclable _ hdr.2)
  rw [hc3]
  exact ⟨rfl, rfl, rfl⟩

/-- Witness for C5: the amended behaviour on a concrete mid-session state
whose current frame lacks a timestamp. -/
theorem c5_witness :
    (c5anim.nextframe 1).kind = DecisionKind.advance ∧
    (c5anim.nextframe 1).rendered.isSome = true ∧
    (c5anim.nextframe 1).exhausted = false :=
  c5_missing_timestamp_advances c5anim 1 [1, 2] rfl rfl rfl (by decide) (by decide)

theorem genMarkersAux_succ (e step : ℚ) :
    ∀ (f : ℕ) (curr : ℚ) (i : ℕ),
      i + 1 < (curr :: genMarkersAux f curr (some e) step).length →
      (curr :: genMarkersAux f curr (some e) step).getD (i + 1) 0 =
        (curr :: genMarkersAux f curr (some e) step).getD i 0 + step := by
  intro f
  induction f with
  | zero =>
    intro curr i hi
    simp [genMarkersAux] at hi
  | succ f ih =>
    intro curr i hi
    simp only [genMarkersAux] at hi ⊢
    by_cases hg : pyLt (some curr) (some e) = true
    · rw [if_pos hg] at hi ⊢
      cases i with
      | zero => simp
      | succ j =>
        simp only [List.length_cons] at hi
        have hj := ih (curr + step) j (by simpa using hi)
        simpa using hj
    · rw [if_neg hg] at hi
      simp at hi

theorem genMarkersAux_guard (e step : ℚ) :
    ∀ (f : ℕ) (curr : ℚ) (i : ℕ),
      i + 1 < (curr :: genMarkersAux f curr (some e) step).length →
      (curr :: genMarkersAux f curr (some e) step).getD i 0 < e := by
  intro f
  induction f with
  | zero =>
    intro curr i hi
    simp [genMarkersAux] at hi
  | succ f ih =>
    intro curr i hi
    simp only [genMarkersAux] at hi ⊢
    by_cases hg : pyLt (some curr) (some e) = true
    · rw [if_pos hg] at hi ⊢
      cases i with
      | zero =>
        simpa using (pyLt_some_iff curr e).mp hg
      | succ j =>
        simp only [List.length_cons] at hi
        have hj := ih (curr + step) j (by simpa using hi)
        simpa using hj
    · rw [if_neg hg] at hi
      simp at hi

theorem genMarkersAux_last (e step : ℚ) :
    ∀ (f : ℕ) (curr : ℚ), e ≤ curr + (f : ℚ) * step →
      e ≤ (genMarkersAux f curr (some e) step).getLastD curr := by
  intro f
  induction f with
  | zero =>
    intro curr hf
    simpa using hf
  | succ f ih =>
    intro curr hf
    simp only [genMarkersAux]
    split
    · rw [List.getLastD_cons]
      apply ih
      have hc : ((f + 1 : ℕ) : ℚ) * step = (f : ℚ) * step + step := by
        push_cast
        ring
      rw [hc] at hf
      linarith
    · rename_i hg
      have hnlt : ¬ curr < e := fun hlt => hg (by simpa [pyLt] using hlt)
      simpa using le_of_not_lt hnlt

theorem genMarkers_last (start e step : ℚ) (hs : 0 < step) :
    e ≤ (genMarkers start (some e) step).getLastD 0 := by
  unfold genMarkers
  rw [List.getLastD_cons]
  apply genMarkersAux_last e step
  show e ≤ start + ((markerFuel start (some e) step : ℕ) : ℚ) * step
  unfold markerFuel
  have h1 : ((e - start) / step) ≤ ((Int.ceil ((e - start) / step) : ℤ) : ℚ) :=
    Int.le_ceil _
  have h2 : ((Int.ceil ((e - start) / step) : ℤ) : ℚ) ≤
      (((Int.ceil ((e - start) / step)).toNat + 1 : ℕ) : ℚ) := by
    push_cast
    have h3 : (Int.ceil ((e - start) / step)) ≤ ((Int.ceil ((e - start) / step)).toNat : ℤ) :=
      Int.self_le_toNat _
    have h4 : ((Int.ceil ((e - start) / step) : ℤ) : ℚ) ≤
        (((Int.ceil ((e - start) / step)).toNat : ℤ) : ℚ) := by
      exact_mod_cast h3
    push_cast at h4
    linarith
  have h5 : (e - start) / step * step = e - start :=
    div_mul_cancel₀ _ (ne_of_gt hs)
  have h6 := mul_le_mul_of_nonneg_right h1 (le_of_lt hs)
  have h7 := mul_le_mul_of_nonneg_right h2 (le_of_lt hs)
  rw [h5] at h6
  linarith

/-- The concrete marker list of the end-to-end scenario: startTime 0 s,
endTime 4 s, timestep 2 s. -/
theorem genMarkers_zero_four_two : genMarkers 0 (some 4) 2 = [0, 2, 4] := by
  have hf : markerFuel 0 (some 4) 2 = 3 := by
    unfold markerFuel
    norm_num
    decide
  unfold genMarkers
  rw [hf]
  norm_num [genMarkersAux, pyLt]

/-- Counterexample for C4: with startTime 0 s, endTime 4 s and timestep
2 s — an exact division of the span — the generated sequence is [0, 2, 4]:
its last marker equals endTime, and no marker lies strictly past endTime,
so the sequence is not "inclusive of the first point past endTime". -/
theorem c4_counterexample :
    genMarkers 0 (some 4) 2 = [0, 2, 4] ∧
    ¬ ∃ m ∈ genMarkers 0 (some 4) 2, (4 : ℚ) < m := by
  refine ⟨genMarkers_zero_four_two, ?_⟩
  rw [genMarkers_zero_four_two]
  decide

/-- Claim C4 as amended: the rate-derived generation satisfies markers[0] =
startTime, markers[i] = markers[i-1] + timestep, every marker having a
successor (those that passed the loop guard) is below endTime, and with a
positive timestep the last marker is at or past endTime — it equals
endTime exactly when the span divides evenly, and only otherwise lies
strictly past it. -/
theorem c4_rate_marker_generation (start e step : ℚ) (i : ℕ)
    (hstep : 0 < step)
    (hi : i + 1 < (genMarkers start (some e) step).length) :
    (genMarkers start (some e) step).headD 0 = start ∧
    (genMarkers start (some e) step).getD (i + 1) 0 =
      (genMarkers start (some e) step).getD i 0 + step ∧
    (genMarkers start (some e) step).getD i 0 < e ∧
    e ≤ (genMarkers start (some e) step).getLastD 0 :=
  ⟨rfl, genMarkersAux_succ e step (markerFuel start (some e) step) start i hi,
    genMarkersAux_guard e step (markerFuel start (some e) step) start i hi,
    genMarkers_last start e step hstep⟩

/-- Witness for C4: the amended generation facts at startTime 0, endTime 4,
timestep 2, index 0. -/
theorem c4_witness :
    (genMarkers 0 (some 4) 2).headD 0 = 0 ∧
    (genMarkers 0 (some 4) 2).getD 1 0 = (genMarkers 0 (some 4) 2).getD 0 0 + 2 ∧
    (genMarkers 0 (some 4) 2).getD 0 0 < 4 ∧
    (4 : ℚ) ≤ (genMarkers 0 (some 4) 2).getLastD 0 :=
  c4_rate_marker_generation 0 4 2 0 (by decide)
    (by rw [genMarkers_zero_four_two]; decide)

/-- Claim C9: a marker sequence generated by the rate-derived loop with
positive sps and fps (timestep = sps / fps) is strictly increasing at every
adjacent pair. -/
theorem c9_marker_monotonicity (start e sps fps : ℚ) (i : ℕ)
    (hsps : 0 < sps) (hfps : 0 < fps)
    (hi : i + 1 < (genMarkers start (some e) (sps / fps)).length) :
    (genMarkers start (some e) (sps / fps)).getD i 0 <
      (genMarkers start (some e) (sps / fps)).getD (i + 1) 0 := by
  have hstep : 0 < sps / fps := div_pos hsps hfps
  have hsucc := genMarkersAux_succ e (sps / fps)
    (markerFuel start (some e) (sps / fps)) start i hi
  calc (genMarkers start (some e) (sps / fps)).getD i 0
      < (genMarkers start (some e) (sps / fps)).getD i 0 + sps / fps := by linarith
    _ = (genMarkers start (some e) (sps / fps)).getD (i + 1) 0 := hsucc.symm

/-- The concrete marker list for the monotonicity witness: timestep 2/1. -/
theorem genMarkers_two_over_one : genMarkers 0 (some 4) (2 / 1) = [0, 2, 4] := by
  have h : (2 : ℚ) / 1 = 2 := by norm_num
  rw [h]
  exact genMarkers_zero_four_two

/-- Witness for C9: adjacent markers at index 0 of the sequence generated
with sps 2, fps 1. -/
theorem c9_witness :
    (genMarkers 0 (some 4) ((2 : ℚ) / 1)).getD 0 0 <
      (genMarkers 0 (some 4) ((2 : ℚ) / 1)).getD 1 0 :=
  c9_marker_monotonicity 0 4 2 1 0 (by decide) (by decide)
    (by rw [genMarkers_two_over_one]; decide)

/-- The end-to-end scenario session evaluates concretely: five frames at
0..4 s, sps 2, a 1000 ms interval, hence fps 1, timestep 2 s, markers
[0, 2, 4] and save_count 3. -/
theorem c1_init_eq :
    RadarAnim.init files1 false (some 2) none 1000 = Except.ok c1anim := by
  unfold RadarAnim.init
  dsimp only
  have hcur : get_time (RadarCache.curr ⟨files1, 0, false, true, 3⟩) = some 0 := rfl
  rw [hcur]
  dsimp only
  rw [Except.ok.injEq]
  have hstep : (2 : ℚ) / ((1000 : ℚ) / 1000) = 2 := by norm_num
  have hfps : (1000 : ℚ) / 1000 = 1 := by norm_num
  rw [hstep, hfps]
  have hend : get_time (RadarCache.peek_prev ⟨files1, 0, false, true, 3⟩) = some 4 := rfl
  rw [hend]
  rw [genMarkers_zero_four_two]
  rfl

/-- Counterexample for C1: the scenario session does not have the marker
list [0, 2, 4, 6] with save_count 4 that the claim states — the generation
loop stops once the appended marker reaches endTime 4 s, giving [0, 2, 4]
and save_count 3. -/
theorem c1_counterexample :
    sessionView (RadarAnim.init files1 false (some 2) none 1000) ≠
      some (some [0, 2, 4, 6], 4) := by
  rw [c1_init_eq]
  decide

/-- Claim C1 as amended: the scenario markers are [0, 2, 4] with
save_count 3; tick 0 Advances rendering the 0 s frame, tick 1 drops the
1 s frame and renders the 2 s frame, tick 2 Advances rendering the 3 s
frame (the 4 s marker equals endTime and the drop guard is strict, so the
4 s frame is not reached), and tick 3 — its marker wrapping to 0 s —
cycle-resets past 2 frames back to the start and renders the 1 s frame;
no tick Holds. -/
theorem c1_scenario :
    RadarAnim.init files1 false (some 2) none 1000 = Except.ok c1anim ∧
    c1anim.time_markers = some [0, 2, 4] ∧
    c1anim.save_count = 3 ∧
    (runTicks c1anim 4).map tickView =
      [⟨DecisionKind.advance, 0, 0, some (some 0), false⟩,
       ⟨DecisionKind.advance, 1, 0, some (some 2), false⟩,
       ⟨DecisionKind.advance, 0, 0, some (some 3), false⟩,
       ⟨DecisionKind.advance, 0, 2, some (some 1), false⟩] :=
  ⟨c1_init_eq, rfl, rfl, by decide⟩
